import Mathlib

/-!
Verification of the financial computation engine of a loan-decision
application (`app.py`).  The numeric functions of the source are embedded
shallowly over `ℚ` (the source computes with Python real arithmetic; all
quantities the claims mention are rational-valued expressions).  Python
raises run-time arithmetic faults where Lean's total field operations do
not, so next to each pure embedding there is, where a claim depends on it,
a `*_py` variant returning `Except PyErr` that makes the fault explicit:
`x / 0` raises `ZeroDivisionError`, `math.log x` with `x ≤ 0` raises a
math domain `ValueError`.
-/

/-- Arithmetic faults Python raises at run time: `ZeroDivisionError`
and the math domain `ValueError` of `math.log` on a non-positive
argument. -/
inductive PyErr where
  | zeroDiv
  | mathDomain
  deriving DecidableEq

/-- Embedding of `calculate_emi(principal, annual_rate, years)`
(app.py lines 32–39): `r = annual_rate/(12*100)`, `n = years*12`;
if `r = 0` the linear installment `principal/n`, otherwise the annuity
formula.  Total function: Lean's `x / 0 = 0` stands in for the Python
`ZeroDivisionError` cases, which `calculate_emi_py` makes explicit. -/
def calculate_emi (principal annual_rate : ℚ) (years : ℕ) : ℚ × ℕ × ℚ :=
  let r : ℚ := annual_rate / (12 * 100)
  let n : ℕ := years * 12
  let emi : ℚ :=
    if r = 0 then principal / (n : ℚ)
    else principal * r * (1 + r) ^ n / ((1 + r) ^ n - 1)
  (emi, n, r)

/-- `calculate_emi` with Python error semantics: the `r = 0` branch divides
by `n` (zero when `years = 0`) and the annuity branch divides by
`(1+r)^n - 1` (zero e.g. when `years = 0`); both raise
`ZeroDivisionError` in Python when the divisor is zero.  No other failure
path exists in the source — in particular there is no input validation. -/
def calculate_emi_py (principal annual_rate : ℚ) (years : ℕ) :
    Except PyErr (ℚ × ℕ × ℚ) :=
  let r : ℚ := annual_rate / (12 * 100)
  let n : ℕ := years * 12
  if r = 0 then
    if (n : ℚ) = 0 then .error .zeroDiv
    else .ok (principal / (n : ℚ), n, r)
  else
    if (1 + r) ^ n - 1 = 0 then .error .zeroDiv
    else .ok (principal * r * (1 + r) ^ n / ((1 + r) ^ n - 1), n, r)

/-- Embedding of `remaining_balance(P, r, emi, k)` (app.py lines 41–42):
the closed-form outstanding balance `P(1+r)^k − emi((1+r)^k − 1)/r`.
The source has no `r = 0` branch; this pure version uses Lean's total
division, `remaining_balance_py` records the Python fault at `r = 0`. -/
def remaining_balance (P r emi : ℚ) (k : ℕ) : ℚ :=
  P * (1 + r) ^ k - emi * ((1 + r) ^ k - 1) / r

/-- `remaining_balance` with Python error semantics: the single expression
of the source divides by `r`, so `r = 0` raises `ZeroDivisionError`. -/
def remaining_balance_py (P r emi : ℚ) (k : ℕ) : Except PyErr ℚ :=
  if r = 0 then .error .zeroDiv
  else .ok (remaining_balance P r emi k)

/-- Embedding of `future_value_monthly_sip(pmt, annual_return, months)`
(app.py lines 44–48). -/
def future_value_monthly_sip (pmt annual_return : ℚ) (months : ℕ) : ℚ :=
  let r : ℚ := annual_return / (12 * 100)
  if r = 0 then pmt * months
  else pmt * ((1 + r) ^ months - 1) / r

/-- Embedding of `npv_stream(payment, discount_rate, months)`
(app.py lines 50–54); `(1+r)**(-months)` is the rational `zpow`. -/
def npv_stream (payment discount_rate : ℚ) (months : ℕ) : ℚ :=
  let r : ℚ := discount_rate / (12 * 100)
  if r = 0 then payment * months
  else payment * (1 - (1 + r) ^ (-(months : ℤ))) / r

/-- What the tab-2 prepayment block displays.  `noOutput`: the whole
computation and display sit inside `if new_balance > 0:` with no `else`,
so nothing is produced when the prepayment retires the loan.  `result`
records the block's successful path: `new_n` is
`⌈log logArg / log logBase⌉` with `logArg = emi/(emi − new_balance·r)`
and `logBase = 1 + r`; the displayed months-saved / interest-saved /
new-tenure metrics are the fixed functions of `new_n`, `emi`, `n`, `k`
from app.py lines 152–162.  The constructor carries the two (rational)
log arguments, which determine the transcendental `new_n` exactly. -/
inductive PrepayDisplay where
  | noOutput
  | result (logArg logBase : ℚ)
  deriving DecidableEq

/-- Embedding of the tab-2 prepayment block (app.py lines 144–162) with
Python error semantics.  Evaluation order of
`math.log(emi / (emi - new_balance * r)) / math.log(1 + r)`:
the inner division raises `ZeroDivisionError` when `emi − new_balance·r`
is zero; `math.log` raises a math domain error on a non-positive
argument; `math.log(1 + r)` likewise needs `1 + r > 0` (its value is
nonzero because `r ≠ 0` already holds on this path, so the outer division
cannot raise).  The source guards none of these. -/
def tab2_prepay (loan_amount r emi : ℚ) (prepay_year : ℕ) (prepay_amount : ℚ) :
    Except PyErr PrepayDisplay :=
  let k := prepay_year * 12
  if r = 0 then .error .zeroDiv
  else
    let balance_before := remaining_balance loan_amount r emi k
    let new_balance := balance_before - prepay_amount
    if 0 < new_balance then
      let d := emi - new_balance * r
      if d = 0 then .error .zeroDiv
      else if emi / d ≤ 0 then .error .mathDomain
      else if 1 + r ≤ 0 then .error .mathDomain
      else .ok (.result (emi / d) (1 + r))
    else .ok .noOutput

/-- The tab-2 block as reached from the app's inputs: `emi, n, r` come
from `calculate_emi(loan_amount, interest_rate, remaining_years)`
(app.py line 82). -/
def tab2_app (loan_amount interest_rate : ℚ) (remaining_years prepay_year : ℕ)
    (prepay_amount : ℚ) : Except PyErr PrepayDisplay :=
  match calculate_emi_py loan_amount interest_rate remaining_years with
  | .error e => .error e
  | .ok (emi, _, r) => tab2_prepay loan_amount r emi prepay_year prepay_amount

/-- Embedding of the tab-3 `while balance > 0 and months < 1000:` loop
(app.py lines 178–188), fuel-indexed: `fuel = 1000 − months` so the guard
`months < 1000` is `fuel > 0`.  State is
`(balance, total_payment_with_prepay, months)`. -/
def payoff_loop (r emi extra : ℚ) : ℕ → ℚ → ℚ → ℕ → ℚ × ℚ × ℕ
  | 0, balance, total, months => (balance, total, months)
  | fuel + 1, balance, total, months =>
    if 0 < balance then
      let interest := balance * r
      let payment := emi + extra
      let principal_paid := payment - interest
      payoff_loop r emi extra fuel (balance - principal_paid) (total + payment)
        (months + 1)
    else (balance, total, months)

/-- The tab-3 loop started from its initial state
`balance = loan_amount, months = 0, total_payment_with_prepay = 0`. -/
def tab3_sim (loan_amount r emi extra_monthly : ℚ) : ℚ × ℚ × ℕ :=
  payoff_loop r emi extra_monthly 1000 loan_amount 0 0

/-- The balance after `k` unconditional executions of the tab-3 loop body
(app.py lines 183–186): `balance -= (emi + extra) − balance·r`. -/
def payoff_balance (r emi extra P : ℚ) : ℕ → ℚ
  | 0 => P
  | k + 1 =>
    let b := payoff_balance r emi extra P k
    b - ((emi + extra) - b * r)

/-- The outputs of the tab-3 prepay-vs-invest section
(app.py lines 178–211). -/
structure Tab3Out where
  months : ℕ
  balance : ℚ
  total_payment_with_prepay : ℚ
  interest_saved : ℚ
  years_saved : ℚ
  fv : ℚ
  investing_wins : Bool
  deriving DecidableEq

/-- Embedding of the tab-3 prepay-vs-invest section (app.py lines
178–211): run the loop, then
`interest_saved = (emi·n − loan) − (total − loan)`,
`years_saved = (n − months)/12`,
`fv = future_value_monthly_sip(extra_monthly, expected_return, n)`
(note: over `n`, the full original tenure, not over `months`), and the
verdict `INVESTING wins` iff `fv > interest_saved`. -/
def tab3_app (loan_amount interest_rate : ℚ) (remaining_years : ℕ)
    (extra_monthly expected_return : ℚ) : Tab3Out :=
  let t := calculate_emi loan_amount interest_rate remaining_years
  let emi := t.1
  let n := t.2.1
  let r := t.2.2
  let s := tab3_sim loan_amount r emi extra_monthly
  let balance := s.1
  let total_payment_with_prepay := s.2.1
  let months := s.2.2
  let interest_saved := (emi * n - loan_amount) - (total_payment_with_prepay - loan_amount)
  let years_saved := ((n : ℚ) - (months : ℚ)) / 12
  let fv := future_value_monthly_sip extra_monthly expected_return n
  { months := months, balance := balance,
    total_payment_with_prepay := total_payment_with_prepay,
    interest_saved := interest_saved, years_saved := years_saved, fv := fv,
    investing_wins := decide (fv > interest_saved) }

/-- Embedding of the single-point buy-vs-rent NPV differential
(app.py lines 220–228) as a function of the swept parameters: the loan
rate and the price growth.  `emi_case, n_case` come from `calculate_emi`
at that rate; `diff = (pv_buy − pv_resale) − pv_rent`. -/
def buy_vs_rent_diff (loan_amount rate : ℚ) (remaining_years : ℕ)
    (rent discount_rate price_growth : ℚ) : ℚ :=
  let t := calculate_emi loan_amount rate remaining_years
  let emi_case := t.1
  let n_case := t.2.1
  let pv_buy := npv_stream emi_case discount_rate n_case
  let pv_rent := npv_stream rent discount_rate n_case
  let future_price := loan_amount * (1 + price_growth / 100) ^ remaining_years
  let pv_resale := future_price / (1 + discount_rate / 100) ^ remaining_years
  (pv_buy - pv_resale) - pv_rent

/-- Embedding of the tab-3 sensitivity heatmap loop (app.py lines
258–271): rows over the growth samples, columns over the rate samples;
`n_case` comes from the line-220 `calculate_emi` at the ambient
`interest_rate`, and `pv_rent` is computed once outside the loops
(line 223) and reused in every cell. -/
def heatmap_grid (loan_amount interest_rate : ℚ) (remaining_years : ℕ)
    (rent discount_rate : ℚ) (growth_range rate_range : List ℚ) :
    List (List ℚ) :=
  let n_case := (calculate_emi loan_amount interest_rate remaining_years).2.1
  let pv_rent := npv_stream rent discount_rate n_case
  growth_range.map (fun g =>
    rate_range.map (fun rate =>
      let emi_t := (calculate_emi loan_amount rate remaining_years).1
      let pv_buy_t := npv_stream emi_t discount_rate n_case
      let future_price_t := loan_amount * (1 + g / 100) ^ remaining_years
      let pv_resale_t := future_price_t / (1 + discount_rate / 100) ^ remaining_years
      (pv_buy_t - pv_resale_t) - pv_rent))

/-! ## Helper lemmas about the closed-form balance and the payoff loop -/

/-- At elapsed month `0` the closed form returns the principal (the `r`
division acts on a zero numerator, so this holds for every `r`). -/
lemma remaining_balance_zero (P r emi : ℚ) : remaining_balance P r emi 0 = P := by
  simp [remaining_balance]

/-- One-step amortization recurrence of the closed form, for `r ≠ 0`. -/
lemma remaining_balance_succ (P r emi : ℚ) (k : ℕ) (h : r ≠ 0) :
    remaining_balance P r emi (k + 1) =
      remaining_balance P r emi k * (1 + r) - emi := by
  simp only [remaining_balance]
  field_simp
  ring

/-- With zero extra payment the iterated loop-body balance is the
closed-form balance, for `r ≠ 0`. -/
lemma payoff_balance_eq_remaining (P r emi : ℚ) (h : r ≠ 0) :
    ∀ k : ℕ, payoff_balance r emi 0 P k = remaining_balance P r emi k := by
  intro k
  induction k with
  | zero => simp [payoff_balance, remaining_balance_zero]
  | succ k ih =>
    rw [payoff_balance, remaining_balance_succ P r emi k h, ih]
    ring

/-- Shifting the start of the iterated loop body by one step. -/
lemma payoff_balance_shift (r emi extra b : ℚ) :
    ∀ k : ℕ, payoff_balance r emi extra b (k + 1) =
      payoff_balance r emi extra (b - ((emi + extra) - b * r)) k := by
  intro k
  induction k with
  | zero => rfl
  | succ k ih => rw [payoff_balance, ih]; rfl

/-- When the combined payment `emi + extra` is non-positive and the rate is
non-negative, a positive balance never decreases, so the loop consumes all
of its fuel: it returns `months = m + fuel` and a balance at least the
starting one. -/
lemma payoff_loop_stuck (r emi extra : ℚ) (hp : emi + extra ≤ 0) (hr : 0 ≤ r) :
    ∀ (fuel : ℕ) (b t : ℚ) (m : ℕ), 0 < b →
      (payoff_loop r emi extra fuel b t m).2.2 = m + fuel ∧
        b ≤ (payoff_loop r emi extra fuel b t m).1 := by
  intro fuel
  induction fuel with
  | zero => intro b t m hb; simp [payoff_loop]
  | succ fuel ih =>
    intro b t m hb
    rw [payoff_loop, if_pos hb]
    have hb' : b ≤ b - ((emi + extra) - b * r) := by nlinarith
    have := ih (b - ((emi + extra) - b * r)) (t + (emi + extra)) (m + 1)
      (lt_of_lt_of_le hb hb')
    refine ⟨by rw [this.1]; omega, le_trans hb' this.2⟩

/-- If the iterated loop-body balance stays positive for `j` steps and is
non-positive at step `j`, the loop with fuel at least `j` exits after
exactly `j` iterations, with `months = m + j`. -/
lemma payoff_loop_exit (r emi extra : ℚ) :
    ∀ (j fuel : ℕ) (b t : ℚ) (m : ℕ), j ≤ fuel →
      (∀ i : ℕ, i < j → 0 < payoff_balance r emi extra b i) →
      payoff_balance r emi extra b j ≤ 0 →
      (payoff_loop r emi extra fuel b t m).2.2 = m + j := by
  intro j
  induction j with
  | zero =>
    intro fuel b t m _ _ hj0
    have hb : ¬ 0 < b := by simpa [payoff_balance] using hj0
    cases fuel with
    | zero => simp [payoff_loop]
    | succ fuel => rw [payoff_loop, if_neg hb]; rfl
  | succ j ih =>
    intro fuel b t m hle hpos hj0
    cases fuel with
    | zero => omega
    | succ fuel =>
      have hb : 0 < b := by simpa [payoff_balance] using hpos 0 (Nat.succ_pos j)
      rw [payoff_loop, if_pos hb]
      have hmonths := ih fuel (b - ((emi + extra) - b * r)) (t + (emi + extra))
        (m + 1) (Nat.succ_le_succ_iff.mp hle)
        (fun i hi => by
          rw [← payoff_balance_shift]
          exact hpos (i + 1) (Nat.succ_lt_succ hi))
        (by rw [← payoff_balance_shift]; exact hj0)
      rw [hmonths]; omega

/-- Closed form of the balance under the annuity installment: with
`A = (1+r)^n` and `emi = P·r·A/(A−1)`, the balance after `j` months is
`P·(A − (1+r)^j)/(A − 1)`. -/
lemma remaining_balance_annuity (P r : ℚ) (n j : ℕ) (hr : r ≠ 0)
    (hA : (1 + r) ^ n - 1 ≠ 0) :
    remaining_balance P r (P * r * (1 + r) ^ n / ((1 + r) ^ n - 1)) j =
      P * ((1 + r) ^ n - (1 + r) ^ j) / ((1 + r) ^ n - 1) := by
  simp only [remaining_balance]
  field_simp
  ring

/-- A loan with a positive principal, positive periodic rate and the
annuity installment over `n ≥ 1` periods pays off in exactly `n` months of
the tab-3 loop (zero extra payment), for any fuel at least `n`. -/
lemma payoff_loop_annuity_months (P r : ℚ) (n fuel : ℕ) (hP : 0 < P)
    (hr : 0 < r) (hn : n ≠ 0) (hfuel : n ≤ fuel) :
    (payoff_loop r (P * r * (1 + r) ^ n / ((1 + r) ^ n - 1)) 0 fuel P 0 0).2.2
      = n := by
  have h1r : (1 : ℚ) < 1 + r := by linarith
  have hA1 : (1 : ℚ) < (1 + r) ^ n := one_lt_pow₀ h1r hn
  have hA : (1 + r) ^ n - 1 ≠ 0 := by linarith
  have hbal : ∀ j : ℕ,
      payoff_balance r (P * r * (1 + r) ^ n / ((1 + r) ^ n - 1)) 0 P j =
        P * ((1 + r) ^ n - (1 + r) ^ j) / ((1 + r) ^ n - 1) := by
    intro j
    rw [payoff_balance_eq_remaining _ _ _ (ne_of_gt hr) j,
      remaining_balance_annuity P r n j (ne_of_gt hr) hA]
  have := payoff_loop_exit r (P * r * (1 + r) ^ n / ((1 + r) ^ n - 1)) 0
    n fuel P 0 0 hfuel
    (fun i hi => by
      rw [hbal i]
      have hpow : (1 + r) ^ i < (1 + r) ^ n := pow_lt_pow_right₀ h1r hi
      exact div_pos (mul_pos hP (by linarith)) (by linarith))
    (by rw [hbal n]; simp)
  simpa using this

/-! ## Claims -/

/-- Claim C1 (counterexample).  The claim asserts `remaining_balance` is
defined (no division by zero) for every rate `≥ 0`, with a separate
`r = 0` linear branch.  At annual rate `0` the code's single closed-form
expression divides by `r = 0` and raises `ZeroDivisionError`: with the
installment actually computed by `calculate_emi(500000, 0, 5)`, evaluating
the balance at elapsed month `0` faults instead of returning `500000`. -/
theorem remaining_balance_rate_zero_cex :
    remaining_balance_py 500000 ((calculate_emi 500000 0 5).2.2)
      ((calculate_emi 500000 0 5).1) 0 = .error .zeroDiv := by
  norm_num [calculate_emi, remaining_balance_py]

/-- Claim C1 (amended).  For every nonzero periodic rate the closed-form
`remaining_balance` is defined and returns exactly the principal at
elapsed month `0`; the source has no `r = 0` branch, so definedness
requires `r ≠ 0` (the claim's `rate ≥ 0` must be strengthened to
`rate > 0`). -/
theorem remaining_balance_defined_at_zero_month (P r emi : ℚ) (h : r ≠ 0) :
    remaining_balance_py P r emi 0 = .ok P := by
  rw [remaining_balance_py, if_neg h, remaining_balance_zero]

/-- Claim C1 witness: the amended theorem at the scenario-1 periodic rate
`r = 1/120` and installment `10624`. -/
theorem remaining_balance_defined_at_zero_month_witness :
    ((1 : ℚ) / 120 ≠ 0) ∧
      remaining_balance_py 500000 (1 / 120) 10624 0 = .ok 500000 :=
  ⟨by norm_num,
    remaining_balance_defined_at_zero_month 500000 (1 / 120) 10624 (by norm_num)⟩

/-- Claim C9 (confirmed).  For `r ≠ 0` the closed-form balance satisfies
the amortization recurrence — `remaining_balance(P, r, emi, 0) = P` and
`remaining_balance(P, r, emi, k+1) = remaining_balance(P, r, emi, k)·(1+r)
− emi` — and coincides, at every month `k`, with the balance after `k`
steps of the tab-3 month-by-month loop body run with zero extra
payment. -/
theorem remaining_balance_recurrence (P r emi : ℚ) (k : ℕ) (h : r ≠ 0) :
    remaining_balance P r emi 0 = P ∧
      remaining_balance P r emi (k + 1) =
        remaining_balance P r emi k * (1 + r) - emi ∧
      payoff_balance r emi 0 P k = remaining_balance P r emi k :=
  ⟨remaining_balance_zero P r emi, remaining_balance_succ P r emi k h,
    payoff_balance_eq_remaining P r emi h k⟩

/-- Claim C9 witness: the recurrence at `P = 2`, `r = 1`, `emi = 3`,
`k = 2`. -/
theorem remaining_balance_recurrence_witness :
    ((1 : ℚ) ≠ 0) ∧
      (remaining_balance 2 1 3 0 = 2 ∧
        remaining_balance 2 1 3 3 = remaining_balance 2 1 3 2 * (1 + 1) - 3 ∧
        payoff_balance 1 3 0 2 2 = remaining_balance 2 1 3 2) :=
  ⟨by norm_num, remaining_balance_recurrence 2 1 3 2 (by norm_num)⟩

/-- Claim C8 (confirmed).  On scenario 1's loan (principal `500000`,
annual rate `10%`, tenure `5` years, so `periods = 60`) with an extra
monthly payment of `0`, the tab-3 month-by-month simulation pays off in
exactly `monthsToPayoff = 60` months: it degenerates to the original
amortization schedule. -/
theorem tab3_months_scenario1 :
    (tab3_app 500000 10 5 0 12).months = 60 ∧
      (calculate_emi 500000 10 5).2.1 = 60 := by
  refine ⟨?_, rfl⟩
  have hm : (tab3_app 500000 10 5 0 12).months =
      (tab3_sim 500000 ((calculate_emi 500000 10 5).2.2)
        ((calculate_emi 500000 10 5).1) 0).2.2 := rfl
  have hr : (calculate_emi 500000 10 5).2.2 = 1 / 120 := by
    norm_num [calculate_emi]
  have hemi : (calculate_emi 500000 10 5).1 =
      500000 * (1 / 120) * (1 + 1 / 120) ^ 60 / ((1 + 1 / 120) ^ 60 - 1) := by
    norm_num [calculate_emi]
  rw [hm, hr, hemi]
  exact payoff_loop_annuity_months 500000 (1 / 120) 60 1000 (by norm_num)
    (by norm_num) (by norm_num) (by norm_num)

/-- Claim C4 (counterexample).  With loan `1200` at rate `0%` over `1`
year (installment `100`) and extra monthly payment `−200`, the combined
payment is negative, the loop's balance grows every month, the
1000-iteration cap is reached with a positive balance — and the code
returns `months = 1000` as an ordinary result (no `PayoffNotConverged`
outcome exists anywhere in the source; lines 190–211 consume `months`
unconditionally). -/
theorem tab3_cap_cex :
    (tab3_app 1200 0 1 (-200) 12).months = 1000 ∧
      0 < (tab3_app 1200 0 1 (-200) 12).balance := by
  have hm : (tab3_app 1200 0 1 (-200) 12).months =
      (tab3_sim 1200 ((calculate_emi 1200 0 1).2.2)
        ((calculate_emi 1200 0 1).1) (-200)).2.2 := rfl
  have hb : (tab3_app 1200 0 1 (-200) 12).balance =
      (tab3_sim 1200 ((calculate_emi 1200 0 1).2.2)
        ((calculate_emi 1200 0 1).1) (-200)).1 := rfl
  have hemi : (calculate_emi 1200 0 1).1 = 100 := by norm_num [calculate_emi]
  have hr : (calculate_emi 1200 0 1).2.2 = 0 := by norm_num [calculate_emi]
  rw [hm, hb, hemi, hr]
  have h := payoff_loop_stuck 0 100 (-200) (by norm_num) (by norm_num)
    1000 1200 0 0 (by norm_num)
  exact ⟨by simpa [tab3_sim] using h.1,
    lt_of_lt_of_le (show (0 : ℚ) < 1200 by norm_num)
      (by simpa [tab3_sim] using h.2)⟩

/-- Claim C4 (amended).  Whenever the combined monthly payment
`emi + extra` is non-positive on a positive balance with a non-negative
rate, the tab-3 loop reaches the 1000-iteration cap with the balance
still positive, and returns `months = 1000` as an ordinary (silently
truncated) result — the source reports no distinct `PayoffNotConverged`
outcome. -/
theorem tab3_cap_exhaustion (loan r emi extra : ℚ) (h1 : emi + extra ≤ 0)
    (h2 : 0 ≤ r) (h3 : 0 < loan) :
    (tab3_sim loan r emi extra).2.2 = 1000 ∧
      0 < (tab3_sim loan r emi extra).1 := by
  have h := payoff_loop_stuck r emi extra h1 h2 1000 loan 0 0 h3
  exact ⟨by simpa [tab3_sim] using h.1,
    lt_of_lt_of_le h3 (by simpa [tab3_sim] using h.2)⟩

/-- Claim C4 witness: the amended theorem at `loan = 1, r = 0, emi = 0,
extra = 0`. -/
theorem tab3_cap_exhaustion_witness :
    ((0 : ℚ) + 0 ≤ 0) ∧ ((0 : ℚ) ≤ 0) ∧ ((0 : ℚ) < 1) ∧
      ((tab3_sim 1 0 0 0).2.2 = 1000 ∧ 0 < (tab3_sim 1 0 0 0).1) :=
  ⟨by norm_num, by norm_num, by norm_num,
    tab3_cap_exhaustion 1 0 0 0 (by norm_num) (by norm_num) (by norm_num)⟩

/-- Claim C2 (counterexample).  On the app path with loan `1200`, annual
rate `120%` (periodic `r = 1/10`), tenure `1` year, prepaying after year
`1` the (negative, widget-permitted) amount `−1000000`: the reduced
balance is `1000000 > 0` and the installment no longer covers its
interest, and the unguarded `math.log(emi / (emi - new_balance * r))`
receives a negative argument — the block raises a math domain error
instead of failing with `PrepaymentInfeasible`. -/
theorem tab2_log_domain_cex :
    tab2_app 1200 120 1 1 (-1000000) = .error .mathDomain := by
  norm_num [tab2_app, calculate_emi_py, tab2_prepay, remaining_balance]

/-- Claim C2 (amended).  In the case `newBalance > 0` with
`0 < installment ≤ newBalance·r` (the log argument not positive), the
prepayment block evaluates the unguarded expression and raises an
arithmetic fault — `ZeroDivisionError` when `installment = newBalance·r`,
a math domain error when `installment < newBalance·r` — rather than
failing with `PrepaymentInfeasible` (no such guard or outcome exists in
the source). -/
theorem tab2_log_domain_fault (loan r emi : ℚ) (prepay_year : ℕ)
    (amt : ℚ) (h0 : r ≠ 0)
    (h1 : 0 < remaining_balance loan r emi (prepay_year * 12) - amt)
    (h2 : 0 < emi)
    (h3 : emi ≤ (remaining_balance loan r emi (prepay_year * 12) - amt) * r) :
    ∃ e : PyErr, tab2_prepay loan r emi prepay_year amt = .error e := by
  simp only [tab2_prepay]
  rw [if_neg h0, if_pos h1]
  by_cases hd : emi - (remaining_balance loan r emi (prepay_year * 12) - amt) * r = 0
  · rw [if_pos hd]
    exact ⟨.zeroDiv, rfl⟩
  · have hdneg : emi - (remaining_balance loan r emi (prepay_year * 12) - amt) * r < 0 :=
      lt_of_le_of_ne (by linarith) hd
    rw [if_neg hd, if_pos (le_of_lt (div_neg_of_pos_of_neg h2 hdneg))]
    exact ⟨.mathDomain, rfl⟩

/-- Claim C2 witness: the amended theorem at `loan = 0, r = 1, emi = 1,
prepay_year = 0, amt = −10` (reduced balance `10`, installment `1 ≤ 10·1`). -/
theorem tab2_log_domain_fault_witness :
    ((1 : ℚ) ≠ 0) ∧ (0 < remaining_balance 0 1 1 (0 * 12) - (-10)) ∧
      ((0 : ℚ) < 1) ∧ ((1 : ℚ) ≤ (remaining_balance 0 1 1 (0 * 12) - (-10)) * 1) ∧
      ∃ e : PyErr, tab2_prepay 0 1 1 0 (-10) = .error e :=
  ⟨by norm_num, by norm_num [remaining_balance], by norm_num,
    by norm_num [remaining_balance],
    tab2_log_domain_fault 0 1 1 0 (-10) (by norm_num)
      (by norm_num [remaining_balance]) (by norm_num)
      (by norm_num [remaining_balance])⟩

/-- Claim C5 (counterexample).  Same loan as the C2 counterexample but
prepaying `1000000`, far more than the outstanding balance: `newBalance ≤ 0`
and the block produces no outcome at all — the whole computation and
display sit inside `if new_balance > 0:` with no `else` branch — instead
of reporting `newPeriods = 0` with the full remaining interest saved. -/
theorem tab2_retired_no_output_cex :
    tab2_app 1200 120 1 1 1000000 = .ok .noOutput := by
  norm_num [tab2_app, calculate_emi_py, tab2_prepay, remaining_balance]

/-- Claim C5 (amended).  Whenever `newBalance ≤ 0` (the prepayment meets
or exceeds the balance before it), the tab-2 block produces no outcome:
it reports neither `newPeriods = 0` nor any `interestSaved` — the entire
result computation is guarded by `if new_balance > 0:` with no `else`. -/
theorem tab2_retired_no_output (loan r emi : ℚ) (prepay_year : ℕ) (amt : ℚ)
    (h0 : r ≠ 0)
    (h1 : remaining_balance loan r emi (prepay_year * 12) - amt ≤ 0) :
    tab2_prepay loan r emi prepay_year amt = .ok .noOutput := by
  simp only [tab2_prepay]
  rw [if_neg h0, if_neg (not_lt.mpr h1)]

/-- Claim C5 witness: the amended theorem at `loan = 0, r = 1, emi = 1,
prepay_year = 0, amt = 10` (balance before `0`, reduced balance `−10`). -/
theorem tab2_retired_no_output_witness :
    ((1 : ℚ) ≠ 0) ∧ (remaining_balance 0 1 1 (0 * 12) - 10 ≤ 0) ∧
      tab2_prepay 0 1 1 0 10 = .ok .noOutput :=
  ⟨by norm_num, by norm_num [remaining_balance],
    tab2_retired_no_output 0 1 1 0 10 (by norm_num)
      (by norm_num [remaining_balance])⟩

/-- A positive rational other than `1` has no power equal to `1`. -/
lemma pow_ne_one_of_pos_of_ne_one (x : ℚ) (hx : 0 < x) (hne : x ≠ 1)
    (n : ℕ) (hn : n ≠ 0) : x ^ n ≠ 1 := by
  rcases lt_or_gt_of_ne hne with h | h
  · exact ne_of_lt (pow_lt_one₀ hx.le h hn)
  · exact ne_of_gt (one_lt_pow₀ h hn)

/-- Claim C3 (counterexample).  `calculate_emi(-1000, 10, 5)` — a
non-positive principal, which the claim says fails with `InvalidInput` —
returns an ordinary `(installment, periods, rate)` triple: the source
performs no input validation at all and no `InvalidInput` outcome exists
in it. -/
theorem calculate_emi_no_invalid_input_cex :
    calculate_emi_py (-1000) 10 5 = .ok (calculate_emi (-1000) 10 5) := by
  norm_num [calculate_emi_py, calculate_emi]

/-- Claim C3 (amended).  `calculate_emi` performs no validation: for every
principal (including `≤ 0`), every `years > 0` and every annual rate
`> −1200` (so the periodic factor `1 + r` stays positive) — in particular
every negative rate above that bound — it returns the
`(installment, periods, rate)` triple normally; it never reports
`InvalidInput`.  The only failure the source can produce is a
`ZeroDivisionError` when `years = 0`. -/
theorem calculate_emi_no_validation (P rate : ℚ) (years : ℕ)
    (hy : 0 < years) (hr : -1200 < rate) :
    calculate_emi_py P rate years = .ok (calculate_emi P rate years) := by
  simp only [calculate_emi_py, calculate_emi]
  by_cases h0 : rate / (12 * 100) = 0
  · rw [if_pos h0, if_pos h0,
      if_neg (show ¬((years * 12 : ℕ) : ℚ) = 0 by
        exact_mod_cast (by omega : ¬ years * 12 = 0))]
  · have h1r : (0 : ℚ) < 1 + rate / (12 * 100) := by
      have : (-1 : ℚ) < rate / (12 * 100) :=
        (lt_div_iff₀ (by norm_num : (0 : ℚ) < 12 * 100)).mpr (by linarith)
      linarith
    have hA : (1 + rate / (12 * 100)) ^ (years * 12) - 1 ≠ 0 := by
      refine sub_ne_zero.mpr
        (pow_ne_one_of_pos_of_ne_one _ h1r ?_ _ (by omega))
      intro habs
      exact h0 (by linarith [habs])
    rw [if_neg h0, if_neg h0, if_neg hA]

/-- Claim C3 witness: the amended theorem at `P = 7, rate = 0, years = 1`
(the zero-rate branch also returns normally). -/
theorem calculate_emi_no_validation_witness :
    (0 < 1) ∧ ((-1200 : ℚ) < 0) ∧
      calculate_emi_py 7 0 1 = .ok (calculate_emi 7 0 1) :=
  ⟨by norm_num, by norm_num,
    calculate_emi_no_validation 7 0 1 (by norm_num) (by norm_num)⟩

/-- Geometric growth bound `(1+r)^n − 1 ≤ n·r·(1+r)^n` for `r ≥ 0`. -/
lemma geom_growth_bound (r : ℚ) (hr : 0 ≤ r) :
    ∀ n : ℕ, (1 + r) ^ n - 1 ≤ (n : ℚ) * r * (1 + r) ^ n := by
  intro n
  induction n with
  | zero => simp
  | succ n ih =>
    have hB : (1 : ℚ) ≤ (1 + r) ^ n := one_le_pow₀ (by linarith)
    have hn0 : (0 : ℚ) ≤ (n : ℚ) := Nat.cast_nonneg n
    have h1 : ((1 + r) ^ n - 1) * (1 + r) ≤ (n : ℚ) * r * (1 + r) ^ n * (1 + r) :=
      mul_le_mul_of_nonneg_right ih (by linarith)
    have h2 : r * 1 ≤ r * ((1 + r) ^ n * (1 + r)) :=
      mul_le_mul_of_nonneg_left (by nlinarith [hB, hr]) hr
    push_cast
    rw [pow_succ]
    nlinarith [h1, h2]

/-- Claim C7 (confirmed).  For every `principal > 0`,
`annualRatePercent ≥ 0` and `years > 0`, the installment and periods
returned by `calculate_emi` satisfy `installment · periods ≥ principal`:
the total of all scheduled payments covers the principal. -/
theorem calculate_emi_total_covers_principal (P rate : ℚ) (years : ℕ)
    (hP : 0 < P) (hrate : 0 ≤ rate) (hy : 0 < years) :
    P ≤ (calculate_emi P rate years).1 *
      (((calculate_emi P rate years).2.1 : ℕ) : ℚ) := by
  simp only [calculate_emi]
  by_cases h0 : rate / (12 * 100) = 0
  · rw [if_pos h0, div_mul_cancel₀ _
      (show ((years * 12 : ℕ) : ℚ) ≠ 0 by
        exact_mod_cast (by omega : ¬ years * 12 = 0))]
  · rw [if_neg h0]
    have hr0 : 0 < rate / (12 * 100) :=
      lt_of_le_of_ne (div_nonneg hrate (by norm_num)) (Ne.symm h0)
    have h1r : (1 : ℚ) < 1 + rate / (12 * 100) := by linarith
    have hA1 : (1 : ℚ) < (1 + rate / (12 * 100)) ^ (years * 12) :=
      one_lt_pow₀ h1r (by omega)
    have hgeom := geom_growth_bound (rate / (12 * 100)) hr0.le (years * 12)
    rw [div_mul_eq_mul_div, le_div_iff₀ (by linarith)]
    nlinarith [mul_le_mul_of_nonneg_left hgeom hP.le]

/-- Claim C7 witness: the theorem at scenario 1
(`P = 500000, rate = 10, years = 5`). -/
theorem calculate_emi_total_covers_principal_witness :
    ((0 : ℚ) < 500000) ∧ ((0 : ℚ) ≤ 10) ∧ (0 < 5) ∧
      (500000 : ℚ) ≤ (calculate_emi 500000 10 5).1 *
        (((calculate_emi 500000 10 5).2.1 : ℕ) : ℚ) :=
  ⟨by norm_num, by norm_num, by norm_num,
    calculate_emi_total_covers_principal 500000 10 5 (by norm_num)
      (by norm_num) (by norm_num)⟩

/-- Claim C6 (confirmed).  Every cell of the sensitivity heatmap equals a
single-point buy-vs-rent differential evaluation with the loan rate set to
the cell's rate sample, the price growth set to the cell's growth sample,
and every other input unchanged: the single-point computation recomputes
`n_case` at the swept rate, but `periods = years·12` does not depend on
the rate, and the rent stream's present value reused across cells is
likewise rate-independent. -/
theorem heatmap_cell_eq_single (loan irate : ℚ) (years : ℕ)
    (rent disc : ℚ) (gs rs : List ℚ) (i j : ℕ) (g rate : ℚ)
    (hg : gs.get? i = some g) (hr : rs.get? j = some rate) :
    ((heatmap_grid loan irate years rent disc gs rs).get? i).bind
        (fun row => row.get? j) =
      some (buy_vs_rent_diff loan rate years rent disc g) := by
  simp only [heatmap_grid, List.get?_map, hg, Option.map_some', Option.some_bind,
    hr]
  rfl

/-- Claim C6 witness: a one-cell grid (`growth sample 3`, `rate sample 7`)
around scenario-1-like inputs. -/
theorem heatmap_cell_eq_single_witness :
    (([(3 : ℚ)].get? 0 = some 3) ∧ ([(7 : ℚ)].get? 0 = some 7)) ∧
      ((heatmap_grid 500000 10 5 8000 8 [3] [7]).get? 0).bind
          (fun row => row.get? 0) =
        some (buy_vs_rent_diff 500000 7 5 8000 8 3) :=
  ⟨⟨rfl, rfl⟩, heatmap_cell_eq_single 500000 10 5 8000 8 [3] [7] 0 0 3 7 rfl rfl⟩

/-- Claim C10 (confirmed).  In the prepay-vs-invest comparison the
investment future value is computed over the full original tenure
`n = years·12`, independently of the simulated `monthsToPayoff`, and the
verdict is `INVESTING wins` exactly when that future value strictly
exceeds the interest saved. -/
theorem tab3_fv_full_tenure (loan rate : ℚ) (years : ℕ) (extra ret : ℚ) :
    (tab3_app loan rate years extra ret).fv =
        future_value_monthly_sip extra ret (years * 12) ∧
      ((tab3_app loan rate years extra ret).investing_wins = true ↔
        (tab3_app loan rate years extra ret).fv >
          (tab3_app loan rate years extra ret).interest_saved) :=
  ⟨rfl, decide_eq_true_iff⟩
